import Mathlib

/-
Verification of the Epiphany BSP per-core runtime (src/e_bsp.c) against its
specification.  The C functions are shallowly embedded as pure Lean functions:
per-core mutable state (`ebsp_core_data coredata`) becomes the structure
`CoreState`, the shared communication region (`ebsp_comm_buf`) becomes the
structure `CommBuf`, byte memory becomes `Nat → Nat`, and each operation
returns its updated state together with an optional diagnostic error.  The
capacity macros of the missing header (MAX_BSP_VARS, MAX_DATA_REQUESTS,
MAX_PAYLOAD_SIZE, MAX_MESSAGES) are passed as explicit parameters.
-/

namespace EBsp

/-- Modelled from the spec: the constant DATA_PUT_BIT comes from a header that
is not part of the sources; the spec says the high bit of the byte-count field
of a data request is repurposed as the put/get discriminator, so we take the
high bit of a 32-bit field. -/
def DATA_PUT_BIT : Nat := 2 ^ 31

/-- One pending remote transfer, mirroring `ebsp_data_request` with fields
`src`, `dst`, `nbytes`; for a put the bit `DATA_PUT_BIT` is set inside
`nbytes`.  Addresses are modelled as natural numbers. -/
structure DataRequest where
  src : Nat
  dst : Nat
  nbytes : Nat
deriving DecidableEq

/-- Byte memory, addressed by natural numbers. -/
abbrev Mem := Nat → Nat

/-- The effect of `memcpy(dst, src, n)` on byte memory: every address in
`[dst, dst + n)` receives the byte at the corresponding offset from `src`. -/
def memcpy (m : Mem) (dst src n : Nat) : Mem :=
  fun a => if dst ≤ a ∧ a < dst + n then m (src + (a - dst)) else m a

/-- The transfer length stored in a request: `nbytes & ~DATA_PUT_BIT` on a
32-bit field, which is `nbytes &&& (DATA_PUT_BIT - 1)`. -/
def reqSize (r : DataRequest) : Nat := r.nbytes &&& (DATA_PUT_BIT - 1)

/-- The test `(reqs[i].nbytes & DATA_PUT_BIT) == 0` selecting get requests in
the first loop of `bsp_sync`. -/
def isGetReq (r : DataRequest) : Bool := r.nbytes &&& DATA_PUT_BIT == 0

/-- The test `(reqs[i].nbytes & DATA_PUT_BIT) != 0` selecting put requests in
the second loop of `bsp_sync`. -/
def isPutReq (r : DataRequest) : Bool := r.nbytes &&& DATA_PUT_BIT != 0

/-- The body of each `bsp_sync` loop iteration:
`memcpy(reqs[i].dst, reqs[i].src, reqs[i].nbytes & ~DATA_PUT_BIT)`. -/
def applyRequest (m : Mem) (r : DataRequest) : Mem :=
  memcpy m r.dst r.src (reqSize r)

/-- One of the two request loops of `bsp_sync`: fold over the request list in
order, applying exactly the requests selected by `f`. -/
def phaseFold (f : DataRequest → Bool) (reqs : List DataRequest) (m : Mem) : Mem :=
  reqs.foldl (fun mm r => if f r then applyRequest mm r else mm) m

/-- First loop of `bsp_sync`: apply every request whose DATA_PUT_BIT is clear
(the gets). -/
def syncGetPhase (reqs : List DataRequest) (m : Mem) : Mem :=
  phaseFold isGetReq reqs m

/-- Second loop of `bsp_sync`: apply every request whose DATA_PUT_BIT is set
(the puts). -/
def syncPutPhase (reqs : List DataRequest) (m : Mem) : Mem :=
  phaseFold isPutReq reqs m

/-- Memory effect of `bsp_sync`: the get loop runs first, a barrier separates
the two loops, then the put loop runs.  `reqs` is the concatenation of all
cores' pending request lists; the two `e_barrier` calls make the two phases
global across cores, so the sequential composition below is the observable
order of the copies. -/
def bsp_sync_mem (reqs : List DataRequest) (m : Mem) : Mem :=
  syncPutPhase reqs (syncGetPhase reqs m)

/-- Byte ranges `[a, a + n)` and `[b, b + m)` do not overlap. -/
def disjointRange (a n b m : Nat) : Prop := a + n ≤ b ∨ b + m ≤ a

instance (a n b m : Nat) : Decidable (disjointRange a n b m) :=
  inferInstanceAs (Decidable (a + n ≤ b ∨ b + m ≤ a))

/-- The error conditions of the runtime, one per diagnostic message string in
e_bsp.c (err_pushreg_multiple, err_pushreg_overflow, err_var_not_found,
err_get_overflow, err_put_overflow, err_put_overflow2, err_send_overflow). -/
inductive BspError where
  | MultipleRegistration
  | RegistrationOverflow
  | VariableNotFound
  | GetRequestOverflow
  | PutRequestOverflow
  | PutPayloadOverflow
  | SendOverflow
deriving DecidableEq

/-- `row_from_pid`: `pid / e_group_config.group_cols`. -/
def row_from_pid (cols pid : Nat) : Nat := pid / cols

/-- `col_from_pid`: `pid % e_group_config.group_cols`. -/
def col_from_pid (cols pid : Nat) : Nat := pid % cols

/-- The search loop of `_get_remote_addr`: starting at `slot`, run for at most
`remaining` further slots, returning the first slot whose entry in the
caller's column of `bsp_var_list` equals `addr`. -/
def searchFrom (varList : Nat → Nat → Nat) (myPid addr slot remaining : Nat) :
    Option Nat :=
  match remaining with
  | 0 => none
  | r + 1 =>
    if varList slot myPid = addr then some slot
    else searchFrom varList myPid addr (slot + 1) r

/-- `_get_remote_addr(pid, addr, offset)`: linear search of the calling core's
column of `bsp_var_list` for `addr` over all `MAX_BSP_VARS` slots; on a match
at `slot`, translate the other core's entry for that slot plus `offset`
through the grid-position to physical-address facility `glob`
(`e_get_global_address`); with no match, signal VariableNotFound (the C code
prints err_var_not_found and returns the null pointer). -/
def _get_remote_addr (glob : Nat → Nat → Nat → Nat) (cols maxVars : Nat)
    (varList : Nat → Nat → Nat) (myPid pid addr offset : Nat) :
    Except BspError Nat :=
  match searchFrom varList myPid addr 0 maxVars with
  | some slot =>
      Except.ok (glob (row_from_pid cols pid) (col_from_pid cols pid)
        (varList slot pid + offset))
  | none => Except.error BspError.VariableNotFound

/-- The per-core bookkeeping of `ebsp_core_data` that the embedded operations
touch. -/
structure CoreState where
  pid : Nat
  request_counter : Nat
  var_pushed : Bool
  tag_size : Nat
  tag_size_next : Nat
  queue_index : Nat
  message_index : Nat
deriving DecidableEq

/-- One `ebsp_message_header`: destination pid, pointers (modelled as offsets
into the shared payload pool) to the tag and the payload, and the payload
byte count. -/
structure MessageHeader where
  pid : Nat
  tag : Nat
  payload : Nat
  nbytes : Nat
deriving DecidableEq

/-- One `ebsp_message_queue`: a message count plus the message array. -/
structure MessageQueue where
  count : Nat
  message : Nat → MessageHeader

/-- The fields of the shared `ebsp_comm_buf` that the embedded operations
touch: the registration counter and table, the payload pool (watermark
`buffer_size` plus the byte buffer `buf`), the per-core request tables, and
the two message queues. -/
structure CommBuf where
  bsp_var_counter : Nat
  bsp_var_list : Nat → Nat → Nat
  buffer_size : Nat
  payload : Nat → Nat
  data_requests : Nat → Nat → DataRequest
  message_queue : Nat → MessageQueue

/-- Write the given byte list into a byte function starting at `dst`
(the effect of `memcpy(dst, bytes, bytes.length)` with a caller-side source
buffer). -/
def writeBytes (mem : Nat → Nat) (dst : Nat) (bytes : List Nat) : Nat → Nat :=
  fun a => if dst ≤ a ∧ a < dst + bytes.length then bytes.getD (a - dst) 0 else mem a

/-- `bsp_push_reg(variable, nbytes)`: refuse with MultipleRegistration if this
core already pushed a variable this superstep; refuse with
RegistrationOverflow if `bsp_var_counter == MAX_BSP_VARS`; otherwise store the
address at `bsp_var_list[bsp_var_counter][pid]` and set `var_pushed`.  The
`nbytes` argument is accepted but never read, exactly as in the C code. -/
def bsp_push_reg (maxVars : Nat) (c : CoreState) (b : CommBuf)
    (variable_addr nbytes : Nat) : CoreState × CommBuf × Option BspError :=
  if c.var_pushed then (c, b, some BspError.MultipleRegistration)
  else if b.bsp_var_counter = maxVars then (c, b, some BspError.RegistrationOverflow)
  else
    ({ c with var_pushed := true },
     { b with bsp_var_list := fun s p =>
         if s = b.bsp_var_counter ∧ p = c.pid then variable_addr
         else b.bsp_var_list s p },
     none)

/-- `bsp_put(pid, src, dst, offset, nbytes)`: refuse with PutRequestOverflow
when the request table is full; resolve `dst` through `_get_remote_addr`
(a failure there aborts the call); under the payload mutex reserve `nbytes`
from the pool watermark, refusing with PutPayloadOverflow when the pool would
overflow; then store the request (with DATA_PUT_BIT set in its `nbytes`) and
copy the caller bytes `src` into the reserved pool region. -/
def bsp_put (glob : Nat → Nat → Nat → Nat) (cols maxVars maxRequests maxPayload : Nat)
    (c : CoreState) (b : CommBuf) (pid : Nat) (src : List Nat)
    (dst offset nbytes : Nat) : CoreState × CommBuf × Option BspError :=
  if c.request_counter ≥ maxRequests then (c, b, some BspError.PutRequestOverflow)
  else
    match _get_remote_addr glob cols maxVars b.bsp_var_list c.pid pid dst offset with
    | Except.error e => (c, b, some e)
    | Except.ok dst_remote =>
      if b.buffer_size + nbytes > maxPayload then (c, b, some BspError.PutPayloadOverflow)
      else
        ({ c with request_counter := c.request_counter + 1 },
         { b with
            buffer_size := b.buffer_size + nbytes,
            data_requests := fun p i =>
              if p = c.pid ∧ i = c.request_counter then
                { src := b.buffer_size, dst := dst_remote,
                  nbytes := nbytes ||| DATA_PUT_BIT }
              else b.data_requests p i,
            payload := writeBytes b.payload b.buffer_size (src.take nbytes) },
         none)

/-- `bsp_get(pid, src, offset, dst, nbytes)`: refuse with GetRequestOverflow
when the request table is full; resolve `src` through `_get_remote_addr`; then
store the request with the raw `nbytes` (DATA_PUT_BIT clear) and `dst`
pointing at the caller's destination. -/
def bsp_get (glob : Nat → Nat → Nat → Nat) (cols maxVars maxRequests : Nat)
    (c : CoreState) (b : CommBuf) (pid src offset dst nbytes : Nat) :
    CoreState × CommBuf × Option BspError :=
  if c.request_counter ≥ maxRequests then (c, b, some BspError.GetRequestOverflow)
  else
    match _get_remote_addr glob cols maxVars b.bsp_var_list c.pid pid src offset with
    | Except.error e => (c, b, some e)
    | Except.ok src_remote =>
      ({ c with request_counter := c.request_counter + 1 },
       { b with data_requests := fun p i =>
           if p = c.pid ∧ i = c.request_counter then
             { src := src_remote, dst := dst, nbytes := nbytes }
           else b.data_requests p i },
       none)

/-- `bsp_set_tagsize(tag_bytes)`: record the requested size for the next
superstep and hand back the currently active tag size. -/
def bsp_set_tagsize (c : CoreState) (tag_bytes : Nat) : CoreState × Nat :=
  ({ c with tag_size_next := tag_bytes }, c.tag_size)

/-- `bsp_send(pid, tag, payload, nbytes)`: on the queue at the current
`queue_index`, under the payload mutex read the slot index `q->count` and the
pool watermark; refuse with SendOverflow when
`payload_offset + tag_size + nbytes > MAX_PAYLOAD_SIZE` or
`index >= MAX_MESSAGES`, leaving both untouched; otherwise increment the
count and advance the watermark by `nbytes` (exactly as the C code does), then
record the descriptor (tag pointer at `payload_offset`, payload pointer at
`payload_offset + tag_size`) and copy `tag_size` tag bytes followed by
`nbytes` payload bytes into the pool. -/
def bsp_send (maxPayload maxMessages : Nat) (c : CoreState) (b : CommBuf)
    (pid : Nat) (tag payl : List Nat) (nbytes : Nat) :
    CoreState × CommBuf × Option BspError :=
  let q := b.message_queue c.queue_index
  if q.count ≥ maxMessages ∨ b.buffer_size + c.tag_size + nbytes > maxPayload then
    (c, b, some BspError.SendOverflow)
  else
    (c,
     { b with
        buffer_size := b.buffer_size + nbytes,
        message_queue := fun qi =>
          if qi = c.queue_index then
            { count := q.count + 1,
              message := fun i =>
                if i = q.count then
                  { pid := pid, tag := b.buffer_size,
                    payload := b.buffer_size + c.tag_size, nbytes := nbytes }
                else q.message i }
          else b.message_queue qi,
        payload := writeBytes (writeBytes b.payload b.buffer_size (tag.take c.tag_size))
          (b.buffer_size + c.tag_size) (payl.take nbytes) },
     none)

/-- The scan loop shared by `_next_queue_message` and `bsp_qsize`
(`for (; coredata.message_index < qsize; coredata.message_index++)`), started
at `idx` with `remaining = qsize - idx` iterations left: skip messages whose
pid differs from the calling core's, stop at the first own message.  Returns
the final value of the loop index together with the found slot, if any. -/
def queueScan (msg : Nat → MessageHeader) (myPid idx remaining : Nat) :
    Nat × Option Nat :=
  match remaining with
  | 0 => (idx, none)
  | r + 1 =>
    if (msg idx).pid ≠ myPid then queueScan msg myPid (idx + 1) r
    else (idx, some idx)

/-- `_next_queue_message()`: scan the queue at the current `queue_index` from
the persisted cursor `message_index`; the cursor itself is the loop variable,
so it ends at the found slot (found) or at `q->count` (not found). -/
def _next_queue_message (c : CoreState) (b : CommBuf) :
    CoreState × Option MessageHeader :=
  match queueScan (b.message_queue c.queue_index).message c.pid c.message_index
      ((b.message_queue c.queue_index).count - c.message_index) with
  | (_, some i) =>
    ({ c with message_index := i }, some ((b.message_queue c.queue_index).message i))
  | (idx2, none) => ({ c with message_index := idx2 }, none)

/-- `_pop_queue_message()`: advance the cursor by one. -/
def _pop_queue_message (c : CoreState) : CoreState :=
  { c with message_index := c.message_index + 1 }

/-- The `bsp_qsize` loop, with the C code's exact out-parameter behaviour: the
statement `*packets++;` parses as `*(packets++)` — it reads through the
pointer and then advances the POINTER, storing nothing — so the packet count
written at entry stays 0 while the pointer offset (second component) drifts.
The accumulator `*accum_bytes += ...` works normally.  Returns
(final loop index, final packets-pointer offset, accumulated bytes). -/
def qsizeScan (msg : Nat → MessageHeader) (myPid idx packetsOff accum remaining : Nat) :
    Nat × Nat × Nat :=
  match remaining with
  | 0 => (idx, packetsOff, accum)
  | r + 1 =>
    if (msg idx).pid ≠ myPid then qsizeScan msg myPid (idx + 1) packetsOff accum r
    else qsizeScan msg myPid (idx + 1) (packetsOff + 1) (accum + (msg idx).nbytes) r

/-- `bsp_qsize(packets, accum_bytes)`: write 0 to both out-parameters, then
run the scan loop on the persisted cursor `message_index`.  Because of the
`*packets++` parse described at `qsizeScan`, the value left at the packets
out-parameter is always 0; the returned triple is
(new core state, value at `*packets`, value at `*accum_bytes`). -/
def bsp_qsize (c : CoreState) (b : CommBuf) : CoreState × Nat × Nat :=
  let q := b.message_queue c.queue_index
  let r := qsizeScan q.message c.pid c.message_index 0 0 (q.count - c.message_index)
  ({ c with message_index := r.1 }, 0, r.2.2)

/-- `bsp_get_tag(status, tag)`: peek at the next own message without popping;
with no message, `*status = -1` (modelled as `none`); otherwise return the
payload byte count and the `tag_size` tag bytes read from the pool. -/
def bsp_get_tag (c : CoreState) (b : CommBuf) :
    CoreState × Option (Nat × List Nat) :=
  match _next_queue_message c b with
  | (c2, none) => (c2, none)
  | (c2, some m) =>
    (c2, some (m.nbytes, (List.range c.tag_size).map (fun j => b.payload (m.tag + j))))

/-- `bsp_move(payload, buffer_size)`: find the next own message and pop it
(the pop happens even when nothing is found, and before the zero-length
check); with `buffer_size == 0` return without copying; otherwise copy
`min(nbytes, buffer_size)` payload bytes into the caller buffer (returned
here as the list of copied bytes). -/
def bsp_move (c : CoreState) (b : CommBuf) (bufferSize : Nat) :
    CoreState × Option (List Nat) :=
  match _next_queue_message c b with
  | (c1, none) => (_pop_queue_message c1, none)
  | (c1, some m) =>
    if bufferSize = 0 then (_pop_queue_message c1, some [])
    else
      (_pop_queue_message c1,
       some ((List.range (if m.nbytes < bufferSize then m.nbytes else bufferSize)).map
         (fun j => b.payload (m.payload + j))))

/-- Bookkeeping effect of `bsp_sync` on the calling core and the shared buffer
(the request-application loops act on memory and are modelled separately by
`bsp_sync_mem`): zero the request counter, zero the pool watermark, clear
`var_pushed` (core 0 also increments the registration counter when it had
pushed), toggle `queue_index` between 0 and 1, commit the negotiated tag
size, and zero the message cursor. -/
def bsp_sync_state (c : CoreState) (b : CommBuf) : CoreState × CommBuf :=
  ({ c with
      request_counter := 0,
      var_pushed := false,
      queue_index := if c.queue_index + 1 = 2 then 0 else c.queue_index + 1,
      tag_size := c.tag_size_next,
      message_index := 0 },
   { b with
      buffer_size := 0,
      bsp_var_counter :=
        if c.var_pushed ∧ c.pid = 0 then b.bsp_var_counter + 1
        else b.bsp_var_counter })

/-- The user-callable operations of one superstep (everything except the sync
itself), for stating per-operation invariants. -/
inductive BspOp where
  | pushReg (v n : Nat)
  | put (pid : Nat) (src : List Nat) (dst offset nbytes : Nat)
  | getOp (pid src offset dst nbytes : Nat)
  | send (pid : Nat) (tag payl : List Nat) (nbytes : Nat)
  | qsizeOp
  | getTag
  | move (bufSize : Nat)
  | setTagsize (t : Nat)

/-- Dispatch one user-callable operation on the calling core's state and the
shared buffer, dropping its outputs.  The operations `bsp_qsize`,
`bsp_get_tag`, `bsp_move` and `bsp_set_tagsize` write only core-local state. -/
def applyOp (glob : Nat → Nat → Nat → Nat)
    (cols maxVars maxRequests maxPayload maxMessages : Nat)
    (op : BspOp) (c : CoreState) (b : CommBuf) : CoreState × CommBuf :=
  match op with
  | BspOp.pushReg v n =>
      ((bsp_push_reg maxVars c b v n).1, (bsp_push_reg maxVars c b v n).2.1)
  | BspOp.put pid src dst offset nbytes =>
      ((bsp_put glob cols maxVars maxRequests maxPayload c b pid src dst offset nbytes).1,
       (bsp_put glob cols maxVars maxRequests maxPayload c b pid src dst offset nbytes).2.1)
  | BspOp.getOp pid src offset dst nbytes =>
      ((bsp_get glob cols maxVars maxRequests c b pid src offset dst nbytes).1,
       (bsp_get glob cols maxVars maxRequests c b pid src offset dst nbytes).2.1)
  | BspOp.send pid tag payl nbytes =>
      ((bsp_send maxPayload maxMessages c b pid tag payl nbytes).1,
       (bsp_send maxPayload maxMessages c b pid tag payl nbytes).2.1)
  | BspOp.qsizeOp => ((bsp_qsize c b).1, b)
  | BspOp.getTag => ((bsp_get_tag c b).1, b)
  | BspOp.move bufSize => ((bsp_move c b bufSize).1, b)
  | BspOp.setTagsize t => ((bsp_set_tagsize c t).1, b)

/-- A quiescent core state: fresh from `bsp_begin` except for the fields given
by the concrete scenarios below. -/
def freshCore (pid tagSize : Nat) : CoreState :=
  { pid := pid, request_counter := 0, var_pushed := false, tag_size := tagSize,
    tag_size_next := tagSize, queue_index := 0, message_index := 0 }

/-- A message header value used to fill unused array slots. -/
def blankHeader : MessageHeader := { pid := 99, tag := 0, payload := 0, nbytes := 0 }

/-- An empty message queue. -/
def emptyQueue : MessageQueue := { count := 0, message := fun _ => blankHeader }

/-- A quiescent shared buffer: zeroed counters, zeroed tables, empty queues. -/
def freshBuf : CommBuf :=
  { bsp_var_counter := 0, bsp_var_list := fun _ _ => 0, buffer_size := 0,
    payload := fun _ => 0, data_requests := fun _ _ => { src := 0, dst := 0, nbytes := 0 },
    message_queue := fun _ => emptyQueue }

/-- C1 scenario: a put request staged at pool offset 100 targeting bytes
`[10, 14)`. -/
def c1_put_req : DataRequest := { src := 100, dst := 10, nbytes := 4 + DATA_PUT_BIT }

/-- C1 scenario: a get request reading bytes `[10, 14)` — the very bytes the
put overwrites — into `[50, 54)`. -/
def c1_get_req : DataRequest := { src := 10, dst := 50, nbytes := 4 }

/-- C2 scenario: core 0 registered address 100 and core 1 registered address
200, both at slot 0; all other table entries are 0. -/
def c2_varList : Nat → Nat → Nat := fun slot p =>
  if slot = 0 ∧ p = 0 then 100 else if slot = 0 ∧ p = 1 then 200 else 0

/-- C2 scenario: an injective stand-in for `e_get_global_address`. -/
def c2_glob : Nat → Nat → Nat → Nat := fun r c a => 4096 * r + 1024 * c + a

/-- C3 scenario: the shared buffer after core 0, in superstep K
(queue_index 0, tag size 0), sends the 2-byte payload `[7, 8]` to core 1. -/
def c3_buf1 : CommBuf := (bsp_send 1024 16 (freshCore 0 0) freshBuf 1 [] [7, 8] 2).2.1

/-- C3 scenario: core 1 during superstep K. -/
def c3_core1 : CoreState := freshCore 1 0

/-- C4 scenario: one 2-byte message addressed to core 1, sitting at slot 0 of
queue 0, its payload at pool offset 4 (after a 4-byte tag). -/
def c4_queue : MessageQueue :=
  { count := 1, message := fun _ => { pid := 1, tag := 0, payload := 4, nbytes := 2 } }

/-- C4 scenario: shared buffer holding just that one message. -/
def c4_buf : CommBuf :=
  { freshBuf with
    buffer_size := 6
    message_queue := fun i => if i = 0 then c4_queue else emptyQueue }

/-- C4 scenario: core 1 with its cursor at 0, tag size 4. -/
def c4_core : CoreState := freshCore 1 4

/-- C5 scenario: result of the first send (tag size 4, payload `[7, 8]`). -/
def c5_send1 : CoreState × CommBuf × Option BspError :=
  bsp_send 1024 16 (freshCore 0 4) freshBuf 1 [1, 1, 1, 1] [7, 8] 2

/-- C5 scenario: result of a second identical send from the buffer the first
one produced. -/
def c5_send2 : CoreState × CommBuf × Option BspError :=
  bsp_send 1024 16 (freshCore 0 4) c5_send1.2.1 1 [2, 2, 2, 2] [9, 9] 2

/-- C6 scenario: registration table where every core registered address 100 at
slot 0, so address resolution succeeds. -/
def c6_buf : CommBuf :=
  { freshBuf with
    buffer_size := 3
    bsp_var_list := fun s _ => if s = 0 then 100 else 0 }

/-- C9 scenario: queue 0 holds one 2-byte message for core 1 whose payload
bytes, at pool offsets 4 and 5, are 7 and 8. -/
def c9_buf : CommBuf :=
  { freshBuf with
    buffer_size := 6
    payload := fun a => if a = 4 then 7 else if a = 5 then 8 else 0
    message_queue := fun i =>
      if i = 0 then
        { count := 1, message := fun _ => { pid := 1, tag := 0, payload := 4, nbytes := 2 } }
      else emptyQueue }

/-- C8 scenario: a core that has already registered this superstep. -/
def c8_core_pushed : CoreState := { freshCore 0 0 with var_pushed := true }

/-- C8 scenario: a buffer whose registration counter has reached the maximum
(taken as 4 in the concrete instance). -/
def c8_buf_full : CommBuf := { freshBuf with bsp_var_counter := 4 }

/-- A point below a range disjoint from `[a, a + n)` is outside `[a, a + n)`. -/
theorem disjointRange_not_mem (a n b m x : Nat) (h : disjointRange a n b m)
    (hx1 : b ≤ x) (hx2 : x < b + m) : ¬(a ≤ x ∧ x < a + n) := by
  unfold disjointRange at h
  omega

/-- Reading inside the copied range of a `memcpy`. -/
theorem memcpy_read (m : Mem) (dst src n j : Nat) (hj : j < n) :
    memcpy m dst src n (dst + j) = m (src + j) := by
  show (if dst ≤ dst + j ∧ dst + j < dst + n then m (src + (dst + j - dst))
        else m (dst + j)) = m (src + j)
  rw [if_pos ⟨Nat.le_add_right _ _, by omega⟩, Nat.add_sub_cancel_left]

/-- A request loop of `bsp_sync` leaves every address untouched that lies in
none of the write ranges of the requests it applies. -/
theorem phaseFold_skip (f : DataRequest → Bool) (l : List DataRequest) (m : Mem)
    (x : Nat) (h : ∀ r ∈ l, f r = true → ¬(r.dst ≤ x ∧ x < r.dst + reqSize r)) :
    phaseFold f l m x = m x := by
  induction l generalizing m with
  | nil => rfl
  | cons r l ih =>
    have hrest : ∀ s ∈ l, f s = true → ¬(s.dst ≤ x ∧ x < s.dst + reqSize s) :=
      fun s hs => h s (List.mem_cons_of_mem _ hs)
    have hstep : (if f r then applyRequest m r else m) x = m x := by
      by_cases hf : f r
      · have hout := h r (List.mem_cons_self _ _) hf
        simp only [hf, if_pos, applyRequest, memcpy]
        rw [if_neg hout]
      · simp [hf]
    calc phaseFold f (r :: l) m x
        = phaseFold f l (if f r then applyRequest m r else m) x := rfl
      _ = (if f r then applyRequest m r else m) x := ih _ hrest
      _ = m x := hstep

/-- Splitting a request loop of `bsp_sync` at a get request in its list. -/
theorem phaseFold_split_get (l₁ l₂ : List DataRequest) (r : DataRequest)
    (m : Mem) (hget : isGetReq r = true) :
    phaseFold isGetReq (l₁ ++ r :: l₂) m
      = phaseFold isGetReq l₂ (applyRequest (phaseFold isGetReq l₁ m) r) := by
  unfold phaseFold
  rw [List.foldl_append]
  simp [hget]

/-- C1: for every request list recorded in one superstep, `bsp_sync` applies
every pending get (DATA_PUT_BIT clear) before any pending put (DATA_PUT_BIT
set), the two loops being separated by a barrier, so each get whose source
region no get destination overlaps and whose destination region no other
request overwrites delivers, after sync completes, exactly the bytes its
source held before any put of the superstep — even when a put targets that
same source region. -/
theorem sync_applies_gets_before_puts
    (l₁ l₂ : List DataRequest) (m : Mem) (r : DataRequest)
    (hget : isGetReq r = true)
    (hw : ∀ s ∈ l₁ ++ l₂, disjointRange s.dst (reqSize s) r.dst (reqSize r))
    (hs : ∀ s ∈ l₁ ++ r :: l₂, isGetReq s = true →
      disjointRange s.dst (reqSize s) r.src (reqSize r))
    (j : Nat) (hj : j < reqSize r) :
    bsp_sync_mem (l₁ ++ r :: l₂) m (r.dst + j) = m (r.src + j) := by
  have hdst_in1 : r.dst ≤ r.dst + j := Nat.le_add_right _ _
  have hdst_in2 : r.dst + j < r.dst + reqSize r := by omega
  have hsrc_in1 : r.src ≤ r.src + j := Nat.le_add_right _ _
  have hsrc_in2 : r.src + j < r.src + reqSize r := by omega
  have hga : syncGetPhase (l₁ ++ r :: l₂) m (r.dst + j) = m (r.src + j) := by
    unfold syncGetPhase
    rw [phaseFold_split_get l₁ l₂ r m hget]
    rw [phaseFold_skip isGetReq l₂ _ _ (fun s hsmem hf =>
      disjointRange_not_mem _ _ _ _ _
        (hw s (List.mem_append_right _ hsmem)) hdst_in1 hdst_in2)]
    unfold applyRequest
    rw [memcpy_read _ _ _ _ _ hj]
    exact phaseFold_skip isGetReq l₁ _ _ (fun s hsmem hf =>
      disjointRange_not_mem _ _ _ _ _
        (hs s (List.mem_append_left _ hsmem) hf) hsrc_in1 hsrc_in2)
  have hpp : syncPutPhase (l₁ ++ r :: l₂) (syncGetPhase (l₁ ++ r :: l₂) m) (r.dst + j)
      = syncGetPhase (l₁ ++ r :: l₂) m (r.dst + j) := by
    apply phaseFold_skip
    intro s hsmem hf
    rcases List.mem_append.mp hsmem with hmem | hmem
    · exact disjointRange_not_mem _ _ _ _ _
        (hw s (List.mem_append_left _ hmem)) hdst_in1 hdst_in2
    · rcases List.mem_cons.mp hmem with rfl | hmem
      · exfalso
        unfold isGetReq at hget
        unfold isPutReq at hf
        simp only [beq_iff_eq] at hget
        simp only [bne_iff_ne, ne_eq] at hf
        exact hf hget
      · exact disjointRange_not_mem _ _ _ _ _
          (hw s (List.mem_append_right _ hmem)) hdst_in1 hdst_in2
  unfold bsp_sync_mem
  rw [hpp, hga]

/-- C1 witness: a concrete superstep with one put overwriting bytes
`[10, 14)` and one get reading those same bytes into `[50, 54)`; after sync
the get's destination holds the pre-superstep value of byte 10. -/
theorem sync_applies_gets_before_puts_witness :
    isGetReq c1_get_req = true ∧
    (∀ s ∈ [c1_put_req] ++ ([] : List DataRequest),
      disjointRange s.dst (reqSize s) c1_get_req.dst (reqSize c1_get_req)) ∧
    (∀ s ∈ [c1_put_req] ++ c1_get_req :: [], isGetReq s = true →
      disjointRange s.dst (reqSize s) c1_get_req.src (reqSize c1_get_req)) ∧
    (0 : Nat) < reqSize c1_get_req ∧
    bsp_sync_mem ([c1_put_req] ++ c1_get_req :: []) (fun a => a)
      (c1_get_req.dst + 0) = (fun a : Nat => a) (c1_get_req.src + 0) := by
  refine ⟨by decide, by decide, by decide, by decide, ?_⟩
  exact sync_applies_gets_before_puts [c1_put_req] [] (fun a => a) c1_get_req
    (by decide) (by decide) (by decide) 0 (by decide)

/-- The registration-slot search returns the first matching slot. -/
theorem searchFrom_first_match (varList : Nat → Nat → Nat) (myPid addr k : Nat)
    (hm : varList k myPid = addr) :
    ∀ remaining slot, slot ≤ k → k < slot + remaining →
      (∀ j, slot ≤ j → j < k → varList j myPid ≠ addr) →
      searchFrom varList myPid addr slot remaining = some k := by
  intro remaining
  induction remaining with
  | zero => intro slot h1 h2 h3; omega
  | succ n ih =>
    intro slot h1 h2 h3
    by_cases hs : varList slot myPid = addr
    · have hsk : slot = k := by
        by_contra hne
        exact h3 slot (Nat.le_refl _) (by omega) hs
      subst hsk
      simp [searchFrom, hs]
    · have hlt : slot < k := by
        rcases Nat.lt_or_ge slot k with h | h
        · exact h
        · have hek : slot = k := by omega
          exact absurd (hek ▸ hm) hs
      simp only [searchFrom, hs, if_false, if_neg hs]
      exact ih (slot + 1) (by omega) (by omega) (fun j hj1 hj2 => h3 j (by omega) hj2)

/-- The registration-slot search fails when no scanned slot matches. -/
theorem searchFrom_no_match (varList : Nat → Nat → Nat) (myPid addr : Nat) :
    ∀ remaining slot,
      (∀ j, slot ≤ j → j < slot + remaining → varList j myPid ≠ addr) →
      searchFrom varList myPid addr slot remaining = none := by
  intro remaining
  induction remaining with
  | zero => intro slot _; rfl
  | succ n ih =>
    intro slot h
    have hs : varList slot myPid ≠ addr := h slot (Nat.le_refl _) (by omega)
    simp only [searchFrom, if_neg hs]
    exact ih (slot + 1) (fun j h1 h2 => h j (by omega) (by omega))

/-- C2: when core A registered address `a` as its k-th registration (slot k is
the first slot of A's column holding `a`) and core B registered address `b` at
that same slot, resolving `(pid := B, local := a, offset)` on core A linearly
searches A's own column, finds slot k, and returns B's entry `b` for that
slot, offset and translated through the grid-position facility; and when no
slot of A's column holds the given address, the resolution signals
VariableNotFound and produces no address. -/
theorem resolve_pairs_registrations (glob : Nat → Nat → Nat → Nat)
    (cols maxVars : Nat) (varList : Nat → Nat → Nat) (A B a b offset k : Nat)
    (hk : k < maxVars) (ha : varList k A = a)
    (hfirst : ∀ j, j < k → varList j A ≠ a) (hb : varList k B = b) :
    _get_remote_addr glob cols maxVars varList A B a offset
      = Except.ok (glob (B / cols) (B % cols) (b + offset)) ∧
    ∀ a2, (∀ j, j < maxVars → varList j A ≠ a2) →
      _get_remote_addr glob cols maxVars varList A B a2 offset
        = Except.error BspError.VariableNotFound := by
  constructor
  · have hsearch : searchFrom varList A a 0 maxVars = some k :=
      searchFrom_first_match varList A a k ha maxVars 0 (Nat.zero_le _)
        (by omega) (fun j _ hj2 => hfirst j hj2)
    simp [_get_remote_addr, hsearch, row_from_pid, col_from_pid, hb]
  · intro a2 hnone
    have hsearch : searchFrom varList A a2 0 maxVars = none :=
      searchFrom_no_match varList A a2 maxVars 0 (fun j _ hj2 => hnone j (by omega))
    simp [_get_remote_addr, hsearch]

/-- C2 witness: with core 0 holding address 100 and core 1 holding address
200 at slot 0 of a 4-slot table, resolution from core 0 of (pid 1, address
100, offset 8) yields the translation of 208, and an unregistered address 77
yields VariableNotFound. -/
theorem resolve_pairs_registrations_witness :
    (0 : Nat) < 4 ∧ c2_varList 0 0 = 100 ∧ c2_varList 0 1 = 200 ∧
    _get_remote_addr c2_glob 4 4 c2_varList 0 1 100 8
      = Except.ok (c2_glob (1 / 4) (1 % 4) (200 + 8)) ∧
    _get_remote_addr c2_glob 4 4 c2_varList 0 1 77 8
      = Except.error BspError.VariableNotFound := by
  refine ⟨by decide, by decide, by decide, ?_, ?_⟩
  · exact (resolve_pairs_registrations c2_glob 4 4 c2_varList 0 1 100 200 8 0
      (by decide) (by decide) (fun j hj => absurd hj (Nat.not_lt_zero j))
      (by decide)).1
  · exact (resolve_pairs_registrations c2_glob 4 4 c2_varList 0 1 100 200 8 0
      (by decide) (by decide) (fun j hj => absurd hj (Nat.not_lt_zero j))
      (by decide)).2 77 (by decide)

/-- C3: counterexample to the claimed queue-rotation visibility.  `bsp_send`
appends to the queue at the CURRENT `queue_index` — the very queue
`_next_queue_message` scans during the same superstep — so the 2-byte message
core 0 sends to core 1 in superstep K is already visible to core 1 during K,
and after `bsp_sync` advances `queue_index` the message is no longer visible
during K+1. -/
theorem send_visible_in_same_superstep :
    ((_next_queue_message c3_core1 c3_buf1).2
      = some { pid := 1, tag := 0, payload := 0, nbytes := 2 }) ∧
    ((_next_queue_message (bsp_sync_state c3_core1 c3_buf1).1
        (bsp_sync_state c3_core1 c3_buf1).2).2 = none) := by
  refine ⟨by decide, by decide⟩

/-- C4: evaluation of `bsp_qsize` at its failing input.  Core 1 was sent one
2-byte message, yet the reported packet count is 0 (the loop's `*packets++`
advances the pointer, not the count) while the byte total is 2; and the scan
runs on the persisted cursor `message_index`, consuming it — the cursor ends
at the queue count, so a subsequent peek finds no message. -/
theorem qsize_reports_zero_and_consumes_cursor :
    bsp_qsize c4_core c4_buf = ({ c4_core with message_index := 1 }, 0, 2) ∧
    (_next_queue_message (bsp_qsize c4_core c4_buf).1 c4_buf).2 = none := by
  refine ⟨by decide, by decide⟩

/-- C5: evaluation of `bsp_send` at its failing input.  With tag size 4, a
successful 2-byte send leaves the pool watermark at 2, not at
`tag_size + nbytes = 6`, although the message occupies pool bytes `[0, 6)`
(tag at 0, payload at 4); the next send therefore places its tag at offset 2,
inside the first message's region. -/
theorem send_advances_watermark_by_nbytes_only :
    c5_send1.2.1.buffer_size = 2 ∧
    ((c5_send1.2.1.message_queue 0).message 0).tag = 0 ∧
    ((c5_send1.2.1.message_queue 0).message 0).payload = 4 ∧
    ((c5_send1.2.1.message_queue 0).message 0).nbytes = 2 ∧
    ((c5_send2.2.1.message_queue 0).message 1).tag = 2 ∧
    ((c5_send2.2.1.message_queue 0).message 1).tag
      < ((c5_send1.2.1.message_queue 0).message 0).payload
        + ((c5_send1.2.1.message_queue 0).message 0).nbytes := by
  refine ⟨by decide, by decide, by decide, by decide, by decide, by decide⟩

/-- `bsp_put` either succeeds or hands back the caller state untouched. -/
theorem bsp_put_state_cases (glob : Nat → Nat → Nat → Nat)
    (cols maxVars maxRequests maxPayload : Nat) (c : CoreState) (b : CommBuf)
    (pid : Nat) (src : List Nat) (dst offset nbytes : Nat) :
    ((bsp_put glob cols maxVars maxRequests maxPayload c b pid src dst offset nbytes).1 = c ∧
     (bsp_put glob cols maxVars maxRequests maxPayload c b pid src dst offset nbytes).2.1 = b) ∨
    (bsp_put glob cols maxVars maxRequests maxPayload c b pid src dst offset nbytes).2.2 = none := by
  unfold bsp_put
  split
  · exact Or.inl ⟨rfl, rfl⟩
  · split
    · exact Or.inl ⟨rfl, rfl⟩
    · split
      · exact Or.inl ⟨rfl, rfl⟩
      · exact Or.inr rfl

/-- `bsp_get` either succeeds or hands back the caller state untouched. -/
theorem bsp_get_state_cases (glob : Nat → Nat → Nat → Nat)
    (cols maxVars maxRequests : Nat) (c : CoreState) (b : CommBuf)
    (pid src offset dst nbytes : Nat) :
    ((bsp_get glob cols maxVars maxRequests c b pid src offset dst nbytes).1 = c ∧
     (bsp_get glob cols maxVars maxRequests c b pid src offset dst nbytes).2.1 = b) ∨
    (bsp_get glob cols maxVars maxRequests c b pid src offset dst nbytes).2.2 = none := by
  unfold bsp_get
  split
  · exact Or.inl ⟨rfl, rfl⟩
  · split
    · exact Or.inl ⟨rfl, rfl⟩
    · exact Or.inr rfl

/-- `bsp_send` either succeeds or hands back the caller state untouched. -/
theorem bsp_send_state_cases (maxPayload maxMessages : Nat) (c : CoreState)
    (b : CommBuf) (pid : Nat) (tag payl : List Nat) (nbytes : Nat) :
    ((bsp_send maxPayload maxMessages c b pid tag payl nbytes).1 = c ∧
     (bsp_send maxPayload maxMessages c b pid tag payl nbytes).2.1 = b) ∨
    (bsp_send maxPayload maxMessages c b pid tag payl nbytes).2.2 = none := by
  by_cases hcond : (b.message_queue c.queue_index).count ≥ maxMessages ∨
      b.buffer_size + c.tag_size + nbytes > maxPayload
  · exact Or.inl (by simp [bsp_send, hcond])
  · exact Or.inr (by simp [bsp_send, hcond])

/-- C6: an overflow failure (PutRequestOverflow or PutPayloadOverflow from
`bsp_put`, GetRequestOverflow from `bsp_get`, SendOverflow from `bsp_send`)
leaves the calling core's state and the whole shared buffer — the pool
watermark, the request counter and table, and the message-queue counts —
exactly as before the call; the operation returns normally, so the calling
core continues past the failed call. -/
theorem overflow_failures_leave_state_unchanged (glob : Nat → Nat → Nat → Nat)
    (cols maxVars maxRequests maxPayload maxMessages : Nat)
    (c : CoreState) (b : CommBuf) (pid dst offset nbytes gsrc gdst : Nat)
    (src tag payl : List Nat) :
    ((bsp_put glob cols maxVars maxRequests maxPayload c b pid src dst offset nbytes).2.2
        = some BspError.PutRequestOverflow ∨
     (bsp_put glob cols maxVars maxRequests maxPayload c b pid src dst offset nbytes).2.2
        = some BspError.PutPayloadOverflow →
      (bsp_put glob cols maxVars maxRequests maxPayload c b pid src dst offset nbytes).1 = c ∧
      (bsp_put glob cols maxVars maxRequests maxPayload c b pid src dst offset nbytes).2.1 = b) ∧
    ((bsp_get glob cols maxVars maxRequests c b pid gsrc offset gdst nbytes).2.2
        = some BspError.GetRequestOverflow →
      (bsp_get glob cols maxVars maxRequests c b pid gsrc offset gdst nbytes).1 = c ∧
      (bsp_get glob cols maxVars maxRequests c b pid gsrc offset gdst nbytes).2.1 = b) ∧
    ((bsp_send maxPayload maxMessages c b pid tag payl nbytes).2.2
        = some BspError.SendOverflow →
      (bsp_send maxPayload maxMessages c b pid tag payl nbytes).1 = c ∧
      (bsp_send maxPayload maxMessages c b pid tag payl nbytes).2.1 = b) := by
  refine ⟨?_, ?_, ?_⟩
  · intro h
    rcases bsp_put_state_cases glob cols maxVars maxRequests maxPayload
      c b pid src dst offset nbytes with hok | hnone
    · exact hok
    · rcases h with h | h <;> rw [hnone] at h <;> exact absurd h (by simp)
  · intro h
    rcases bsp_get_state_cases glob cols maxVars maxRequests
      c b pid gsrc offset gdst nbytes with hok | hnone
    · exact hok
    · rw [hnone] at h
      exact absurd h (by simp)
  · intro h
    rcases bsp_send_state_cases maxPayload maxMessages c b pid tag payl nbytes
      with hok | hnone
    · exact hok
    · rw [hnone] at h
      exact absurd h (by simp)

/-- C6 witness: concrete overflow failures of all three operations leave the
concrete state untouched; in particular a put whose 2 payload bytes would
push the watermark (3) past the pool capacity (4) fails with
PutPayloadOverflow and changes nothing. -/
theorem overflow_failures_leave_state_unchanged_witness :
    ((bsp_put c2_glob 4 4 8 4 (freshCore 0 0) c6_buf 1 [5, 5] 100 0 2).2.2
      = some BspError.PutPayloadOverflow) ∧
    ((bsp_put c2_glob 4 4 8 4 (freshCore 0 0) c6_buf 1 [5, 5] 100 0 2).1 = freshCore 0 0 ∧
     (bsp_put c2_glob 4 4 8 4 (freshCore 0 0) c6_buf 1 [5, 5] 100 0 2).2.1 = c6_buf) ∧
    ((bsp_get c2_glob 4 4 0 (freshCore 0 0) c6_buf 1 100 0 200 2).2.2
      = some BspError.GetRequestOverflow) ∧
    ((bsp_get c2_glob 4 4 0 (freshCore 0 0) c6_buf 1 100 0 200 2).1 = freshCore 0 0 ∧
     (bsp_get c2_glob 4 4 0 (freshCore 0 0) c6_buf 1 100 0 200 2).2.1 = c6_buf) ∧
    ((bsp_send 1024 0 (freshCore 0 0) c6_buf 1 [] [7] 1).2.2
      = some BspError.SendOverflow) ∧
    ((bsp_send 1024 0 (freshCore 0 0) c6_buf 1 [] [7] 1).1 = freshCore 0 0 ∧
     (bsp_send 1024 0 (freshCore 0 0) c6_buf 1 [] [7] 1).2.1 = c6_buf) := by
  refine ⟨rfl,
    (overflow_failures_leave_state_unchanged c2_glob 4 4 8 4 1024
      (freshCore 0 0) c6_buf 1 100 0 2 100 200 [5, 5] [] [7]).1 (Or.inr rfl),
    rfl,
    (overflow_failures_leave_state_unchanged c2_glob 4 4 0 1024 1024
      (freshCore 0 0) c6_buf 1 100 0 2 100 200 [5, 5] [] [7]).2.1 rfl,
    rfl,
    ?_⟩
  exact (overflow_failures_leave_state_unchanged c2_glob 4 4 8 1024 0
    (freshCore 0 0) c6_buf 1 100 0 1 100 200 [5, 5] [] [7]).2.2 rfl

/-- `bsp_put` never lowers the pool watermark. -/
theorem bsp_put_watermark_mono (glob : Nat → Nat → Nat → Nat)
    (cols maxVars maxRequests maxPayload : Nat) (c : CoreState) (b : CommBuf)
    (pid : Nat) (src : List Nat) (dst offset nbytes : Nat) :
    b.buffer_size ≤
      (bsp_put glob cols maxVars maxRequests maxPayload c b pid src dst offset nbytes).2.1.buffer_size := by
  unfold bsp_put
  split
  · exact Nat.le_refl _
  · split
    · exact Nat.le_refl _
    · split
      · exact Nat.le_refl _
      · exact Nat.le_add_right _ _

/-- `bsp_get` never touches the pool watermark. -/
theorem bsp_get_watermark_eq (glob : Nat → Nat → Nat → Nat)
    (cols maxVars maxRequests : Nat) (c : CoreState) (b : CommBuf)
    (pid src offset dst nbytes : Nat) :
    (bsp_get glob cols maxVars maxRequests c b pid src offset dst nbytes).2.1.buffer_size
      = b.buffer_size := by
  unfold bsp_get
  split
  · rfl
  · split
    · rfl
    · rfl

/-- `bsp_send` never lowers the pool watermark. -/
theorem bsp_send_watermark_mono (maxPayload maxMessages : Nat) (c : CoreState)
    (b : CommBuf) (pid : Nat) (tag payl : List Nat) (nbytes : Nat) :
    b.buffer_size ≤
      (bsp_send maxPayload maxMessages c b pid tag payl nbytes).2.1.buffer_size := by
  by_cases hcond : (b.message_queue c.queue_index).count ≥ maxMessages ∨
      b.buffer_size + c.tag_size + nbytes > maxPayload
  · simp [bsp_send, hcond]
  · simp [bsp_send, hcond]

/-- `bsp_push_reg` never touches the pool watermark. -/
theorem bsp_push_reg_watermark_eq (maxVars : Nat) (c : CoreState) (b : CommBuf)
    (v n : Nat) :
    (bsp_push_reg maxVars c b v n).2.1.buffer_size = b.buffer_size := by
  unfold bsp_push_reg
  split
  · rfl
  · split
    · rfl
    · rfl

/-- C7: within a superstep the shared pool watermark `buffer_size` is
monotonically non-decreasing — every user-callable operation either leaves it
unchanged or advances it — and the sync protocol resets it to exactly zero,
so it is zero immediately after `bsp_sync` returns. -/
theorem watermark_monotone_and_reset_by_sync (glob : Nat → Nat → Nat → Nat)
    (cols maxVars maxRequests maxPayload maxMessages : Nat)
    (op : BspOp) (c : CoreState) (b : CommBuf) :
    b.buffer_size ≤
      (applyOp glob cols maxVars maxRequests maxPayload maxMessages op c b).2.buffer_size ∧
    (bsp_sync_state c b).2.buffer_size = 0 := by
  refine ⟨?_, rfl⟩
  cases op with
  | pushReg v n =>
    simp only [applyOp]
    rw [bsp_push_reg_watermark_eq]
  | put pid src dst offset nbytes =>
    exact bsp_put_watermark_mono glob cols maxVars maxRequests maxPayload
      c b pid src dst offset nbytes
  | getOp pid src offset dst nbytes =>
    simp only [applyOp]
    rw [bsp_get_watermark_eq]
  | send pid tag payl nbytes =>
    exact bsp_send_watermark_mono maxPayload maxMessages c b pid tag payl nbytes
  | qsizeOp => exact Nat.le_refl _
  | getTag => exact Nat.le_refl _
  | move bufSize => exact Nat.le_refl _
  | setTagsize t => exact Nat.le_refl _

/-- C8: `bsp_push_reg` refuses with MultipleRegistration exactly when the core
already registered this superstep, refuses with RegistrationOverflow when the
global registration counter has reached the maximum, and otherwise reports no
error, records the address at `[bsp_var_counter][pid]`, and marks the core as
having registered. -/
theorem push_reg_cases (maxVars : Nat) (c : CoreState) (b : CommBuf) (v n : Nat) :
    (c.var_pushed = true →
      bsp_push_reg maxVars c b v n = (c, b, some BspError.MultipleRegistration)) ∧
    (c.var_pushed = false → b.bsp_var_counter = maxVars →
      bsp_push_reg maxVars c b v n = (c, b, some BspError.RegistrationOverflow)) ∧
    (c.var_pushed = false → b.bsp_var_counter ≠ maxVars →
      (bsp_push_reg maxVars c b v n).2.2 = none ∧
      (bsp_push_reg maxVars c b v n).1 = { c with var_pushed := true } ∧
      (bsp_push_reg maxVars c b v n).2.1.bsp_var_list b.bsp_var_counter c.pid = v) := by
  refine ⟨?_, ?_, ?_⟩
  · intro h
    simp [bsp_push_reg, h]
  · intro h1 h2
    simp [bsp_push_reg, h1, h2]
  · intro h1 h2
    simp [bsp_push_reg, h1, h2]

/-- C8 witness: with a 4-slot table, a core that already pushed gets
MultipleRegistration, a full table gets RegistrationOverflow, and a fresh
core registers address 100 at slot `[0][0]` with no error. -/
theorem push_reg_cases_witness :
    bsp_push_reg 4 c8_core_pushed freshBuf 100 4
      = (c8_core_pushed, freshBuf, some BspError.MultipleRegistration) ∧
    bsp_push_reg 4 (freshCore 0 0) c8_buf_full 100 4
      = (freshCore 0 0, c8_buf_full, some BspError.RegistrationOverflow) ∧
    (bsp_push_reg 4 (freshCore 0 0) freshBuf 100 4).2.2 = none ∧
    (bsp_push_reg 4 (freshCore 0 0) freshBuf 100 4).1
      = { freshCore 0 0 with var_pushed := true } ∧
    (bsp_push_reg 4 (freshCore 0 0) freshBuf 100 4).2.1.bsp_var_list 0 0 = 100 := by
  have h3 := (push_reg_cases 4 (freshCore 0 0) freshBuf 100 4).2.2 rfl (by decide)
  exact ⟨(push_reg_cases 4 c8_core_pushed freshBuf 100 4).1 rfl,
    (push_reg_cases 4 (freshCore 0 0) c8_buf_full 100 4).2.1 rfl rfl,
    h3.1, h3.2.1, h3.2.2⟩

/-- C10: the outcome of `bsp_push_reg` is independent of its `nbytes`
argument — the C code declares the parameter and never reads it, so two calls
from the same state with the same address and different sizes produce
identical registration tables, error signalling and registration flags. -/
theorem push_reg_independent_of_nbytes (maxVars : Nat) (c : CoreState)
    (b : CommBuf) (v n1 n2 : Nat) :
    bsp_push_reg maxVars c b v n1 = bsp_push_reg maxVars c b v n2 := rfl

/-- The queue scan stops at the first own message at or after the cursor. -/
theorem queueScan_first (msg : Nat → MessageHeader) (myPid i : Nat)
    (hpid : (msg i).pid = myPid) :
    ∀ remaining idx, idx ≤ i → i < idx + remaining →
      (∀ j, idx ≤ j → j < i → (msg j).pid ≠ myPid) →
      queueScan msg myPid idx remaining = (i, some i) := by
  intro remaining
  induction remaining with
  | zero => intro idx h1 h2 h3; omega
  | succ n ih =>
    intro idx h1 h2 h3
    by_cases hs : (msg idx).pid = myPid
    · have hik : idx = i := by
        by_contra hne
        exact h3 idx (Nat.le_refl _) (by omega) hs
      subst hik
      show (if (msg idx).pid ≠ myPid then queueScan msg myPid (idx + 1) n
            else (idx, some idx)) = (idx, some idx)
      rw [if_neg (fun hcon => hcon hs)]
    · have hlt : idx < i := by
        rcases Nat.lt_or_ge idx i with h | h
        · exact h
        · have hik : idx = i := by omega
          exact absurd (hik ▸ hpid) hs
      show (if (msg idx).pid ≠ myPid then queueScan msg myPid (idx + 1) n
            else (idx, some idx)) = (i, some i)
      rw [if_pos hs]
      exact ih (idx + 1) (by omega) (by omega) (fun j hj1 hj2 => h3 j (by omega) hj2)

/-- C9: when the remainder of the active queue still holds a message for this
core — the first such being at slot `i` — `bsp_move` advances the cursor past
that message (to `i + 1`) and hands the caller the first
`min(buffer_size, nbytes)` payload bytes of that message; a zero-length
receive buffer is legal and still advances the cursor, copying nothing. -/
theorem move_truncates_and_advances (c : CoreState) (b : CommBuf)
    (bufferSize i : Nat)
    (hc : c.message_index ≤ i)
    (hcount : i < (b.message_queue c.queue_index).count)
    (hpid : ((b.message_queue c.queue_index).message i).pid = c.pid)
    (hfirst : ∀ j, j < i → c.message_index ≤ j →
      ((b.message_queue c.queue_index).message j).pid ≠ c.pid) :
    (bsp_move c b bufferSize).1.message_index = i + 1 ∧
    ∃ L, (bsp_move c b bufferSize).2 = some L ∧
      L.length = min bufferSize ((b.message_queue c.queue_index).message i).nbytes ∧
      ∀ k, k < L.length →
        L.getD k 0 = b.payload (((b.message_queue c.queue_index).message i).payload + k) := by
  have hscan : queueScan (b.message_queue c.queue_index).message c.pid
      c.message_index ((b.message_queue c.queue_index).count - c.message_index)
      = (i, some i) :=
    queueScan_first _ _ _ hpid _ c.message_index hc (by omega)
      (fun j hj1 hj2 => hfirst j hj2 hj1)
  have hnext : _next_queue_message c b
      = ({ c with message_index := i },
         some ((b.message_queue c.queue_index).message i)) := by
    unfold _next_queue_message
    rw [hscan]
  unfold bsp_move
  rw [hnext]
  dsimp only
  by_cases hz : bufferSize = 0
  · subst hz
    rw [if_pos rfl]
    exact ⟨rfl, [], rfl, by simp, fun k hk => absurd hk (by simp)⟩
  · rw [if_neg hz]
    refine ⟨rfl, _, rfl, ?_, ?_⟩
    · simp only [List.length_map, List.length_range]
      split <;> omega
    · intro k hk
      simp only [List.length_map, List.length_range] at hk
      rw [List.getD_eq_getElem _ 0 (by simp only [List.length_map, List.length_range]; exact hk)]
      simp

/-- C9 witness: core 1 moves its single 2-byte message (payload bytes 7 and 8)
into a 1-byte buffer: the copy is exactly the first byte 7, and the cursor
advances past the message. -/
theorem move_truncates_and_advances_witness :
    ((bsp_move (freshCore 1 4) c9_buf 1).2 = some [7]) ∧
    (bsp_move (freshCore 1 4) c9_buf 1).1.message_index = 0 + 1 ∧
    ∃ L, (bsp_move (freshCore 1 4) c9_buf 1).2 = some L ∧
      L.length = min 1 ((c9_buf.message_queue (freshCore 1 4).queue_index).message 0).nbytes ∧
      ∀ k, k < L.length →
        L.getD k 0 = c9_buf.payload
          (((c9_buf.message_queue (freshCore 1 4).queue_index).message 0).payload + k) := by
  have h := move_truncates_and_advances (freshCore 1 4) c9_buf 1 0
    (Nat.le_refl _) (by decide) (by decide)
    (fun j hj _ => absurd hj (Nat.not_lt_zero j))
  exact ⟨by decide, h.1, h.2⟩

end EBsp
